import Mathlib

/-
Verification of the client-side data-access layer of the todo-list web
application (the `ApiClient` class): a typed wrapper around HTTP calls that
attaches a bearer Authorization header from browser storage, maps non-2xx
responses to thrown errors, clears stored credentials and redirects on
401/403, and exposes thin per-endpoint bindings for task and auth
operations.

The embedding is shallow: JSON values are an inductive type, browser
`localStorage` is an association list of string keys to string values, a
"browser context" is a boolean flag (`typeof window !== 'undefined'`), and
the response handler of `ApiClient.request` is a pure function from the
pre-parsed response to an outcome record (resolved value, thrown message,
or a crash from dereferencing `window` outside a browser) together with
the resulting storage and any navigation performed.
-/

set_option autoImplicit false
set_option linter.unusedVariables false

/-- Values produced by `JSON.parse`: null, booleans, numbers, strings,
arrays and objects.  Numbers are modelled as integers; no claim depends on
fractional numeric formatting. -/
inductive Json where
  | null
  | bool (b : Bool)
  | num (n : Int)
  | str (s : String)
  | arr (elems : List Json)
  | obj (fields : List (String × Json))
  deriving Repr

/-- JavaScript truthiness of a JSON value: `null`, `false`, `0` and the
empty string are falsy; every array and object is truthy. -/
def jsTruthy : Json → Bool
  | Json.null => false
  | Json.bool b => b
  | Json.num n => n != 0
  | Json.str s => s != ""
  | Json.arr _ => true
  | Json.obj _ => true

/-- First-match lookup among the fields of a JSON object. -/
def lookupField : List (String × Json) → String → Option Json
  | [], _ => none
  | (k, v) :: rest, key => if k = key then some v else lookupField rest key

/-- Property access `v.detail` in JavaScript: on `null` the access itself
throws a TypeError (`Except.error`); on an object it yields the field's
value, or `undefined` (here `Except.ok none`) when the field is absent;
on every other non-null value (numbers, strings, booleans and arrays are
boxed) it yields `undefined` without throwing. -/
def propAccess : Json → String → Except Unit (Option Json)
  | Json.null, _ => Except.error ()
  | Json.obj fields, key => Except.ok (lookupField fields key)
  | _, _ => Except.ok none

/-- Hexadecimal digit used in a `\u00XX` escape. -/
def hexDigit (n : Nat) : Char :=
  if n < 10 then Char.ofNat (48 + n) else Char.ofNat (87 + n)

/-- Escape of one character inside a JSON string literal, as performed by
`JSON.stringify`: quote, backslash, the named control escapes, and a
`\u00XX` escape for every remaining control character. -/
def jsEscapeChar (c : Char) : String :=
  if c = '"' then "\\\""
  else if c = '\\' then "\\\\"
  else if c = Char.ofNat 8 then "\\b"
  else if c = '\t' then "\\t"
  else if c = '\n' then "\\n"
  else if c = Char.ofNat 12 then "\\f"
  else if c = '\r' then "\\r"
  else if c.toNat < 32 then
    "\\u00" ++ String.singleton (hexDigit (c.toNat / 16)) ++
      String.singleton (hexDigit (c.toNat % 16))
  else String.singleton c

/-- JSON string literal with surrounding quotes, as produced by
`JSON.stringify` on a string. -/
def jsStringLit (s : String) : String :=
  "\"" ++ String.join (s.data.map jsEscapeChar) ++ "\""

mutual

/-- Model of `JSON.stringify` on values obtained from `JSON.parse`. -/
def jsonStringify : Json → String
  | Json.null => "null"
  | Json.bool true => "true"
  | Json.bool false => "false"
  | Json.num n => toString n
  | Json.str s => jsStringLit s
  | Json.arr xs => "[" ++ stringifyElems xs ++ "]"
  | Json.obj fs => "\x7b" ++ stringifyFields fs ++ "\x7d"

/-- Comma-separated serialization of array elements. -/
def stringifyElems : List Json → String
  | [] => ""
  | [x] => jsonStringify x
  | x :: y :: rest => jsonStringify x ++ "," ++ stringifyElems (y :: rest)

/-- Comma-separated serialization of object fields. -/
def stringifyFields : List (String × Json) → String
  | [] => ""
  | [(k, v)] => jsStringLit k ++ ":" ++ jsonStringify v
  | (k, v) :: y :: rest =>
      jsStringLit k ++ ":" ++ jsonStringify v ++ "," ++ stringifyFields (y :: rest)

end

/-- Browser `localStorage`, modelled as an association list from keys to
string values. -/
abbrev Storage := List (String × String)

/-- Model of `localStorage.getItem`: the value under the key, or `none`
(JS `null`) when absent. -/
def getItem : Storage → String → Option String
  | [], _ => none
  | (k, v) :: rest, key => if k = key then some v else getItem rest key

/-- Model of `localStorage.removeItem`: drops every entry under the key. -/
def removeItem (st : Storage) (key : String) : Storage :=
  st.filter (fun p => p.1 != key)

/-- Truthiness of `localStorage.getItem`'s result (`string | null`): JS
`null` and the empty string are falsy. -/
def tokenTruthy : Option String → Bool
  | some t => t != ""
  | none => false

/-- Token read at the start of `ApiClient.request`: `localStorage` is
consulted only when `typeof window !== 'undefined'`. -/
def getToken (isBrowser : Bool) (st : Storage) : Option String :=
  if isBrowser then getItem st "accessToken" else none

/-- Spread `...(token ? { 'Authorization': `Bearer ${token}` } : {})`:
the bearer header is added only when the token read is truthy. -/
def bearerHeader : Option String → List (String × String)
  | some t => if t != "" then [("Authorization", "Bearer " ++ t)] else []
  | none => []

/-- First-match lookup in a header list (model of reading a key of the
headers object). -/
def lookupHeader : List (String × String) → String → Option String
  | [], _ => none
  | (k, v) :: rest, key => if k = key then some v else lookupHeader rest key

/-- Effect of writing one key into an object literal being built by
spread: an existing key keeps its position and gets the new value, a new
key is appended. -/
def setHeader (hs : List (String × String)) (k v : String) : List (String × String) :=
  if hs.any (fun p => decide (p.1 = k)) then
    hs.map (fun p => if p.1 = k then (k, v) else p)
  else
    hs ++ [(k, v)]

/-- Spread `...extra` over an object already holding `base`: keys of
`extra` are written in order, later occurrences overriding earlier ones. -/
def mergeHeaders (base extra : List (String × String)) : List (String × String) :=
  extra.foldl (fun hs p => setHeader hs p.1 p.2) base

/-- The `options` argument of `ApiClient.request` (the `RequestInit`
fields the client uses). -/
structure RequestOptions where
  method : Option String
  body : Option String
  headers : List (String × String)
  deriving Repr, DecidableEq, Inhabited

/-- The default `options = {}` of `ApiClient.request`. -/
def noOptions : RequestOptions :=
  { method := none, body := none, headers := [] }

/-- Headers object built by `ApiClient.request`: the `Content-Type`
default, then the bearer header when the token is truthy, then the
caller-supplied headers, later keys overriding earlier ones. -/
def requestHeaders (isBrowser : Bool) (st : Storage) (opts : RequestOptions) :
    List (String × String) :=
  mergeHeaders
    (("Content-Type", "application/json") :: bearerHeader (getToken isBrowser st))
    opts.headers

/-- An HTTP response as `ApiClient.request` observes it: the numeric
status, the status text, and the result of `response.json()` — `none`
when the body is missing or unparsable. -/
structure Response where
  status : Nat
  statusText : String
  jsonBody : Option Json
  deriving Repr

/-- Model of `response.ok`: status in the inclusive range 200–299. -/
def respOk (r : Response) : Bool :=
  decide (200 ≤ r.status ∧ r.status ≤ 299)

/-- The `errorDetail` computed on the 401/403 path from a successfully
accessed `errorData.detail` (a missing or unparsable body leaves
`errorData = {}`, so the access yields `undefined`): the field verbatim
when it is a string, otherwise
`JSON.stringify(errorData.detail || 'Unauthorized')`. -/
def authErrorDetail (detail : Option Json) : String :=
  match detail with
  | some (Json.str s) => s
  | some d => if jsTruthy d then jsonStringify d else jsonStringify (Json.str "Unauthorized")
  | none => jsonStringify (Json.str "Unauthorized")

/-- The `errorDetail` computed on the other non-2xx path from a
successfully accessed `errorData.detail`: the field verbatim when it is
a string, its serialization when it is truthy, and otherwise the
synthesized `API request failed: ${status} - ${statusText}` message. -/
def otherErrorDetail (detail : Option Json) (status : Nat) (statusText : String) : String :=
  match detail with
  | some (Json.str s) => s
  | some d =>
      if jsTruthy d then jsonStringify d
      else "API request failed: " ++ toString status ++ " - " ++ statusText
  | none => "API request failed: " ++ toString status ++ " - " ++ statusText

/-- How one call of `ApiClient.request` ends: it resolves with a value
(`none` for the bare `undefined` of the 204 path), it throws an `Error`
with a message, the `response.json()` of the success path rejects on an
unparsable body, or it crashes with an uncaught runtime error — the
TypeError raised by accessing `.detail` on a null `errorData`, or the
ReferenceError raised by dereferencing `window` outside a browser. -/
inductive RequestOutcome where
  | success (val : Option Json)
  | thrown (msg : String)
  | jsonError
  | crash
  deriving Repr

/-- Observable result of one `ApiClient.request` call: the headers sent,
how the call ended, the storage left behind, and the navigation performed
(the assignment to `window.location.href`), if any. -/
structure ReqResult where
  sentHeaders : List (String × String)
  outcome : RequestOutcome
  storage : Storage
  navigatedTo : Option String
  deriving Repr

/-- The body of `ApiClient.request` after the `fetch`, as a function of
the context flag, the storage, the options and the response: the 401/403
branch (access `errorData.detail` — which throws a TypeError on a body
parsing to JSON null, before any side effect — then extract the message,
clear tokens under the `window` guard, navigate — which crashes outside
a browser — and throw), the `!response.ok` branch (the same access, then
extract the message and throw), the 204 branch (resolve with no value),
and the success branch (resolve with the parsed body). -/
def handleResponse (isBrowser : Bool) (st : Storage) (r : Response) :
    RequestOutcome × Storage × Option String :=
  if r.status == 401 || r.status == 403 then
    match propAccess (r.jsonBody.getD (Json.obj [])) "detail" with
    | Except.error _ => (RequestOutcome.crash, st, none)
    | Except.ok detail =>
      let msg := authErrorDetail detail
      let st' := if isBrowser then removeItem (removeItem st "accessToken") "refreshToken" else st
      if isBrowser then
        (RequestOutcome.thrown msg, st', some "/auth/signin")
      else
        (RequestOutcome.crash, st', none)
  else if !respOk r then
    match propAccess (r.jsonBody.getD (Json.obj [])) "detail" with
    | Except.error _ => (RequestOutcome.crash, st, none)
    | Except.ok detail =>
      (RequestOutcome.thrown (otherErrorDetail detail r.status r.statusText), st, none)
  else if r.status == 204 then
    (RequestOutcome.success none, st, none)
  else
    match r.jsonBody with
    | some d => (RequestOutcome.success (some d), st, none)
    | none => (RequestOutcome.jsonError, st, none)

/-- One full call of `ApiClient.request` on a given response: headers are
built from context, storage and options; the endpoint only selects the
URL and does not influence the outcome. -/
def request (isBrowser : Bool) (st : Storage) (endpoint : String)
    (opts : RequestOptions) (r : Response) : ReqResult :=
  let handled := handleResponse isBrowser st r
  { sentHeaders := requestHeaders isBrowser st opts
    outcome := handled.1
    storage := handled.2.1
    navigatedTo := handled.2.2 }

/-- The `TaskCreate` request payload: title required, description and
completion flag optional. -/
structure TaskCreate where
  title : String
  description : Option String
  completed : Option Bool
  deriving Repr

/-- The `TaskUpdate` request payload: every field optional. -/
structure TaskUpdate where
  title : Option String
  description : Option String
  completed : Option Bool
  deriving Repr

/-- The `RegisterRequest` payload: email, password and display name. -/
structure RegisterRequest where
  email : String
  password : String
  name : String
  deriving Repr

/-- The credentials object passed to `login`. -/
structure Credentials where
  email : String
  password : String
  deriving Repr

/-- JSON object for a `TaskCreate` value; `JSON.stringify` omits
properties whose value is `undefined`. -/
def TaskCreate.toJson (t : TaskCreate) : Json :=
  Json.obj ([("title", Json.str t.title)] ++
    (match t.description with | some d => [("description", Json.str d)] | none => []) ++
    (match t.completed with | some c => [("completed", Json.bool c)] | none => []))

/-- JSON object for a `TaskUpdate` value, absent fields omitted. -/
def TaskUpdate.toJson (t : TaskUpdate) : Json :=
  Json.obj ((match t.title with | some s => [("title", Json.str s)] | none => []) ++
    (match t.description with | some d => [("description", Json.str d)] | none => []) ++
    (match t.completed with | some c => [("completed", Json.bool c)] | none => []))

/-- JSON object for a `RegisterRequest` value. -/
def RegisterRequest.toJson (u : RegisterRequest) : Json :=
  Json.obj [("email", Json.str u.email), ("password", Json.str u.password),
    ("name", Json.str u.name)]

/-- JSON object for a `Credentials` value. -/
def Credentials.toJson (c : Credentials) : Json :=
  Json.obj [("email", Json.str c.email), ("password", Json.str c.password)]

/-- The public methods of `ApiClient`, with their arguments. -/
inductive ApiMethod where
  | getTasks
  | createTask (t : TaskCreate)
  | getTaskById (id : Nat)
  | updateTask (id : Nat) (t : TaskUpdate)
  | deleteTask (id : Nat)
  | toggleTaskCompletion (id : Nat) (completed : Bool)
  | getTaskStatistics
  | register (u : RegisterRequest)
  | login (c : Credentials)
  | logoutCall
  | isAuthenticatedCall
  deriving Repr

/-- The endpoint and options each `ApiClient` method passes to `request`;
`logout` and `isAuthenticated` issue no HTTP request at all. -/
def httpCall : ApiMethod → Option (String × RequestOptions)
  | ApiMethod.getTasks => some ("/tasks/", noOptions)
  | ApiMethod.createTask t => some ("/tasks/",
      { method := some "POST", body := some (jsonStringify t.toJson), headers := [] })
  | ApiMethod.getTaskById id => some ("/tasks/" ++ toString id, noOptions)
  | ApiMethod.updateTask id t => some ("/tasks/" ++ toString id,
      { method := some "PUT", body := some (jsonStringify t.toJson), headers := [] })
  | ApiMethod.deleteTask id => some ("/tasks/" ++ toString id,
      { method := some "DELETE", body := none, headers := [] })
  | ApiMethod.toggleTaskCompletion id completed => some ("/tasks/" ++ toString id ++ "/complete",
      { method := some "PATCH",
        body := some (jsonStringify (Json.obj [("completed", Json.bool completed)])),
        headers := [] })
  | ApiMethod.getTaskStatistics => some ("/tasks/statistics", noOptions)
  | ApiMethod.register u => some ("/auth/register",
      { method := some "POST", body := some (jsonStringify u.toJson), headers := [] })
  | ApiMethod.login c => some ("/auth/login",
      { method := some "POST", body := some (jsonStringify c.toJson), headers := [] })
  | ApiMethod.logoutCall => none
  | ApiMethod.isAuthenticatedCall => none

/-- Model of `ApiClient.logout`: both token keys are removed when in a
browser context; storage is untouched otherwise, and no request is made. -/
def logout (isBrowser : Bool) (st : Storage) : Storage :=
  if isBrowser then removeItem (removeItem st "accessToken") "refreshToken" else st

/-- Model of `ApiClient.isAuthenticated`:
`!!localStorage.getItem('accessToken')` in a browser context, `false`
on the server side. -/
def isAuthenticated (isBrowser : Bool) (st : Storage) : Bool :=
  if isBrowser then tokenTruthy (getItem st "accessToken") else false

/-- Last-occurrence lookup in a header list: the value a JS object
literal ends up holding for a key after writing all entries in order. -/
def lastLookup (hs : List (String × String)) (key : String) : Option String :=
  lookupHeader hs.reverse key

section StorageLemmas

theorem getItem_cons (p : String × String) (t : Storage) (key : String) :
    getItem (p :: t) key = if p.1 = key then some p.2 else getItem t key := by
  cases p
  rfl

theorem removeItem_cons (p : String × String) (t : Storage) (key : String) :
    removeItem (p :: t) key =
      if p.1 = key then removeItem t key else p :: removeItem t key := by
  by_cases hp : p.1 = key
  · simp [removeItem, List.filter_cons, hp]
  · simp [removeItem, List.filter_cons, hp]

theorem getItem_removeItem_self (st : Storage) (key : String) :
    getItem (removeItem st key) key = none := by
  induction st with
  | nil => rfl
  | cons p t ih =>
    rw [removeItem_cons]
    by_cases hp : p.1 = key
    · rw [if_pos hp]
      exact ih
    · rw [if_neg hp, getItem_cons, if_neg hp]
      exact ih

theorem getItem_removeItem_other (st : Storage) (key k : String) (h : k ≠ key) :
    getItem (removeItem st key) k = getItem st k := by
  induction st with
  | nil => rfl
  | cons p t ih =>
    rw [removeItem_cons, getItem_cons]
    by_cases hp : p.1 = key
    · have hk : p.1 ≠ k := fun hh => h (by rw [← hh, hp])
      rw [if_pos hp, if_neg hk]
      exact ih
    · rw [if_neg hp, getItem_cons]
      by_cases hk : p.1 = k
      · rw [if_pos hk, if_pos hk]
      · rw [if_neg hk, if_neg hk]
        exact ih

end StorageLemmas

section HeaderLemmas

theorem lookupHeader_cons (p : String × String) (t : List (String × String)) (key : String) :
    lookupHeader (p :: t) key = if p.1 = key then some p.2 else lookupHeader t key := by
  cases p
  rfl

theorem lookupHeader_append (l1 l2 : List (String × String)) (key : String) :
    lookupHeader (l1 ++ l2) key =
      match lookupHeader l1 key with
      | some v => some v
      | none => lookupHeader l2 key := by
  induction l1 with
  | nil => rfl
  | cons p t ih =>
    rw [List.cons_append, lookupHeader_cons, lookupHeader_cons]
    by_cases hp : p.1 = key
    · rw [if_pos hp, if_pos hp]
    · rw [if_neg hp, if_neg hp, ih]

theorem lookupHeader_none_of_no_key (hs : List (String × String)) (k : String)
    (h : hs.any (fun p => decide (p.1 = k)) = false) :
    lookupHeader hs k = none := by
  induction hs with
  | nil => rfl
  | cons p t ih =>
    rw [List.any_cons, Bool.or_eq_false_iff] at h
    have hp : p.1 ≠ k := by simpa using h.1
    rw [lookupHeader_cons, if_neg hp]
    exact ih h.2

theorem lookupHeader_map_overwrite_ne (hs : List (String × String)) (k v key : String)
    (h : key ≠ k) :
    lookupHeader (hs.map (fun p => if p.1 = k then (k, v) else p)) key =
      lookupHeader hs key := by
  induction hs with
  | nil => rfl
  | cons p t ih =>
    rw [List.map_cons, lookupHeader_cons, lookupHeader_cons]
    by_cases hp : p.1 = k
    · have hkk : ¬(k, v).1 = key := fun hh => h hh.symm
      have hpk : ¬p.1 = key := fun hh => h (by rw [← hh, hp])
      rw [if_pos hp, if_neg hkk, if_neg hpk, ih]
    · rw [if_neg hp, ih]

theorem lookupHeader_map_overwrite_self (hs : List (String × String)) (k v : String)
    (h : hs.any (fun p => decide (p.1 = k)) = true) :
    lookupHeader (hs.map (fun p => if p.1 = k then (k, v) else p)) k = some v := by
  induction hs with
  | nil => simp at h
  | cons p t ih =>
    rw [List.map_cons]
    by_cases hp : p.1 = k
    · rw [if_pos hp, lookupHeader_cons, if_pos rfl]
    · rw [List.any_cons, Bool.or_eq_true] at h
      have h2 : t.any (fun p => decide (p.1 = k)) = true := by
        rcases h with h | h
        · exact absurd (by simpa using h) hp
        · exact h
      rw [if_neg hp, lookupHeader_cons, if_neg hp]
      exact ih h2

theorem lookupHeader_setHeader (hs : List (String × String)) (k v key : String) :
    lookupHeader (setHeader hs k v) key =
      if k = key then some v else lookupHeader hs key := by
  unfold setHeader
  by_cases hany : hs.any (fun p => decide (p.1 = k)) = true
  · rw [if_pos hany]
    by_cases hk : k = key
    · subst hk
      rw [if_pos rfl]
      exact lookupHeader_map_overwrite_self hs k v hany
    · rw [if_neg hk]
      exact lookupHeader_map_overwrite_ne hs k v key (fun hh => hk hh.symm)
  · rw [if_neg hany]
    have hany' : hs.any (fun p => decide (p.1 = k)) = false := by
      revert hany
      cases hs.any (fun p => decide (p.1 = k)) <;> simp
    rw [lookupHeader_append]
    by_cases hk : k = key
    · subst hk
      rw [lookupHeader_none_of_no_key hs k hany']
      simp [lookupHeader]
    · cases hcase : lookupHeader hs key with
      | some w => simp [hk, hcase]
      | none => simp [hcase, lookupHeader_cons, hk, lookupHeader]

theorem lookupHeader_mergeHeaders (hs base : List (String × String)) (key : String) :
    lookupHeader (mergeHeaders base hs) key =
      match lastLookup hs key with
      | some v => some v
      | none => lookupHeader base key := by
  induction hs generalizing base with
  | nil => rfl
  | cons p t ih =>
    have hcons : lastLookup (p :: t) key =
        match lastLookup t key with
        | some v => some v
        | none => if p.1 = key then some p.2 else none := by
      unfold lastLookup
      simp only [List.reverse_cons]
      rw [lookupHeader_append]
      cases lookupHeader t.reverse key <;> simp [lookupHeader]
    rw [show mergeHeaders base (p :: t) = mergeHeaders (setHeader base p.1 p.2) t from rfl]
    rw [ih, hcons, lookupHeader_setHeader]
    cases lastLookup t key <;> by_cases hk : p.1 = key <;> simp [hk]

end HeaderLemmas

section ResponseLemmas

theorem handleResponse_auth_browser (st : Storage) (r : Response) (detail : Option Json)
    (h : r.status = 401 ∨ r.status = 403)
    (hacc : propAccess (r.jsonBody.getD (Json.obj [])) "detail" = Except.ok detail) :
    handleResponse true st r =
      (RequestOutcome.thrown (authErrorDetail detail),
       removeItem (removeItem st "accessToken") "refreshToken",
       some "/auth/signin") := by
  unfold handleResponse
  rcases h with h | h <;> simp [h, hacc]

theorem handleResponse_auth_null_body (b : Bool) (st : Storage) (r : Response)
    (h : r.status = 401 ∨ r.status = 403) (hb : r.jsonBody = some Json.null) :
    handleResponse b st r = (RequestOutcome.crash, st, none) := by
  unfold handleResponse
  rcases h with h | h <;> simp [h, hb, propAccess]

theorem handleResponse_auth_server (st : Storage) (r : Response)
    (h : r.status = 401 ∨ r.status = 403) :
    handleResponse false st r = (RequestOutcome.crash, st, none) := by
  unfold handleResponse
  rcases h with h | h <;>
    cases hacc : propAccess (r.jsonBody.getD (Json.obj [])) "detail" <;>
      simp [h, hacc]

theorem handleResponse_other_error (b : Bool) (st : Storage) (r : Response)
    (detail : Option Json)
    (hok : respOk r = false) (h1 : r.status ≠ 401) (h3 : r.status ≠ 403)
    (hacc : propAccess (r.jsonBody.getD (Json.obj [])) "detail" = Except.ok detail) :
    handleResponse b st r =
      (RequestOutcome.thrown (otherErrorDetail detail r.status r.statusText), st, none) := by
  unfold handleResponse
  have hbeq : (r.status == 401 || r.status == 403) = false := by
    simp [h1, h3]
  simp [hbeq, hok, hacc]

theorem handleResponse_other_null_body (b : Bool) (st : Storage) (r : Response)
    (hok : respOk r = false) (h1 : r.status ≠ 401) (h3 : r.status ≠ 403)
    (hb : r.jsonBody = some Json.null) :
    handleResponse b st r = (RequestOutcome.crash, st, none) := by
  unfold handleResponse
  have hbeq : (r.status == 401 || r.status == 403) = false := by
    simp [h1, h3]
  simp [hbeq, hok, hb, propAccess]

theorem respOk_status_ne (r : Response) (hok : respOk r = true) :
    r.status ≠ 401 ∧ r.status ≠ 403 := by
  unfold respOk at hok
  have h := of_decide_eq_true hok
  omega

theorem handleResponse_no_content (b : Bool) (st : Storage) (r : Response)
    (hok : respOk r = true) (h204 : r.status = 204) :
    handleResponse b st r = (RequestOutcome.success none, st, none) := by
  unfold handleResponse
  simp [h204, hok]

theorem handleResponse_parsed (b : Bool) (st : Storage) (r : Response) (d : Json)
    (hok : respOk r = true) (h204 : r.status ≠ 204) (hb : r.jsonBody = some d) :
    handleResponse b st r = (RequestOutcome.success (some d), st, none) := by
  unfold handleResponse
  obtain ⟨h1, h3⟩ := respOk_status_ne r hok
  have hbeq : (r.status == 401 || r.status == 403) = false := by
    simp [h1, h3]
  simp [hbeq, hok, h204, hb]

theorem authErrorDetail_str (s : String) :
    authErrorDetail (some (Json.str s)) = s := rfl

theorem otherErrorDetail_str (status : Nat) (stext : String) (s : String) :
    otherErrorDetail (some (Json.str s)) status stext = s := rfl

theorem otherErrorDetail_of_missing_detail (status : Nat) (stext : String) :
    otherErrorDetail none status stext =
      "API request failed: " ++ toString status ++ " - " ++ stext := rfl

end ResponseLemmas

/-- Counterexample to C1 as stated: a 401 in a browser context whose
body parses to JSON null makes the `errorData.detail` access throw a
TypeError before the cleanup — the call crashes with both tokens still
in storage, no navigation, and no thrown error message, instead of the
documented clear-navigate-throw sequence. -/
theorem C1_null_body_crashes_before_cleanup :
    (request true [("accessToken", "tok"), ("refreshToken", "ref")] "/auth/login"
        noOptions
        { status := 401, statusText := "Unauthorized",
          jsonBody := some Json.null }).outcome = RequestOutcome.crash ∧
    (request true [("accessToken", "tok"), ("refreshToken", "ref")] "/auth/login"
        noOptions
        { status := 401, statusText := "Unauthorized",
          jsonBody := some Json.null }).storage
      = [("accessToken", "tok"), ("refreshToken", "ref")] ∧
    (request true [("accessToken", "tok"), ("refreshToken", "ref")] "/auth/login"
        noOptions
        { status := 401, statusText := "Unauthorized",
          jsonBody := some Json.null }).navigatedTo = none ∧
    (∀ msg, (request true [("accessToken", "tok"), ("refreshToken", "ref")] "/auth/login"
        noOptions
        { status := 401, statusText := "Unauthorized",
          jsonBody := some Json.null }).outcome ≠ RequestOutcome.thrown msg) := by
  have hcr : (request true [("accessToken", "tok"), ("refreshToken", "ref")] "/auth/login"
      noOptions
      { status := 401, statusText := "Unauthorized",
        jsonBody := some Json.null }).outcome = RequestOutcome.crash := rfl
  refine ⟨hcr, rfl, rfl, ?_⟩
  intro msg hcontra
  rw [hcr] at hcontra
  exact RequestOutcome.noConfusion hcontra

/-- C1 (amended): in a browser context, every call through
`ApiClient.request` whose 401/403 response body does not make the
`errorData.detail` access throw (equivalently, whose body does not parse
to JSON null, so the access yields a detail value) throws an error
carrying the extracted message — the string `detail` field verbatim when
present, a generic fallback otherwise — leaves neither the `accessToken`
nor the `refreshToken` entry in storage, and navigates to
`/auth/signin`. -/
theorem C1_auth_failure_clears_and_throws (st : Storage) (e : String)
    (opts : RequestOptions) (r : Response) (detail : Option Json)
    (h : r.status = 401 ∨ r.status = 403)
    (hacc : propAccess (r.jsonBody.getD (Json.obj [])) "detail" = Except.ok detail) :
    (request true st e opts r).outcome = RequestOutcome.thrown (authErrorDetail detail) ∧
    getItem (request true st e opts r).storage "accessToken" = none ∧
    getItem (request true st e opts r).storage "refreshToken" = none ∧
    (request true st e opts r).navigatedTo = some "/auth/signin" ∧
    (∀ s, detail = some (Json.str s) → authErrorDetail detail = s) := by
  have hh := handleResponse_auth_browser st r detail h hacc
  simp only [request]
  rw [hh]
  refine ⟨rfl, ?_, ?_, rfl, ?_⟩
  · rw [show ((RequestOutcome.thrown (authErrorDetail detail),
        removeItem (removeItem st "accessToken") "refreshToken",
        some "/auth/signin") : RequestOutcome × Storage × Option String).2.1 =
        removeItem (removeItem st "accessToken") "refreshToken" from rfl]
    rw [getItem_removeItem_other _ _ _ (by decide)]
    exact getItem_removeItem_self st "accessToken"
  · exact getItem_removeItem_self _ "refreshToken"
  · intro s hs
    rw [hs]
    exact authErrorDetail_str s

/-- Witness for the amended C1: `login` with bad credentials — a 401
response with body `{"detail":"bad credentials"}` clears both storage
keys, navigates to the sign-in route, and throws "bad credentials". -/
theorem C1_auth_failure_clears_and_throws_witness :
    (request true [("accessToken", "tok"), ("refreshToken", "ref")] "/auth/login"
        { method := some "POST",
          body := some (jsonStringify (Credentials.toJson
            { email := "a@b.com", password := "x" })),
          headers := [] }
        { status := 401, statusText := "Unauthorized",
          jsonBody := some (Json.obj [("detail", Json.str "bad credentials")]) }).outcome
      = RequestOutcome.thrown "bad credentials" ∧
    getItem (request true [("accessToken", "tok"), ("refreshToken", "ref")] "/auth/login"
        { method := some "POST",
          body := some (jsonStringify (Credentials.toJson
            { email := "a@b.com", password := "x" })),
          headers := [] }
        { status := 401, statusText := "Unauthorized",
          jsonBody := some (Json.obj [("detail", Json.str "bad credentials")]) }).storage
      "accessToken" = none ∧
    getItem (request true [("accessToken", "tok"), ("refreshToken", "ref")] "/auth/login"
        { method := some "POST",
          body := some (jsonStringify (Credentials.toJson
            { email := "a@b.com", password := "x" })),
          headers := [] }
        { status := 401, statusText := "Unauthorized",
          jsonBody := some (Json.obj [("detail", Json.str "bad credentials")]) }).storage
      "refreshToken" = none ∧
    (request true [("accessToken", "tok"), ("refreshToken", "ref")] "/auth/login"
        { method := some "POST",
          body := some (jsonStringify (Credentials.toJson
            { email := "a@b.com", password := "x" })),
          headers := [] }
        { status := 401, statusText := "Unauthorized",
          jsonBody := some (Json.obj [("detail", Json.str "bad credentials")]) }).navigatedTo
      = some "/auth/signin" := by
  have h := C1_auth_failure_clears_and_throws
    [("accessToken", "tok"), ("refreshToken", "ref")] "/auth/login"
    { method := some "POST",
      body := some (jsonStringify (Credentials.toJson
        { email := "a@b.com", password := "x" })),
      headers := [] }
    { status := 401, statusText := "Unauthorized",
      jsonBody := some (Json.obj [("detail", Json.str "bad credentials")]) }
    (some (Json.str "bad credentials"))
    (Or.inl rfl)
    rfl
  exact ⟨h.1, h.2.1, h.2.2.1, h.2.2.2.1⟩

/-- C2: a call through `ApiClient.request` receiving a 2xx response
resolves with no value when the status is 204 — whatever the body holds —
and otherwise resolves with exactly the parsed JSON body. -/
theorem C2_success_resolution (b : Bool) (st : Storage) (e : String)
    (opts : RequestOptions) (r : Response) (hok : respOk r = true) :
    (r.status = 204 → (request b st e opts r).outcome = RequestOutcome.success none) ∧
    (r.status ≠ 204 → ∀ d, r.jsonBody = some d →
      (request b st e opts r).outcome = RequestOutcome.success (some d)) := by
  constructor
  · intro h204
    have hh := handleResponse_no_content b st r hok h204
    simp only [request]
    rw [hh]
  · intro h204 d hd
    have hh := handleResponse_parsed b st r d hok h204 hd
    simp only [request]
    rw [hh]

/-- Witness for C2: `deleteTask(1)` receiving 204 with an unparsable body
resolves with no value, and `getTasks` receiving 200 with body `[]`
resolves with the parsed empty array. -/
theorem C2_success_resolution_witness :
    (request true [] "/tasks/1"
        { method := some "DELETE", body := none, headers := [] }
        { status := 204, statusText := "No Content", jsonBody := none }).outcome
      = RequestOutcome.success none ∧
    (request true [] "/tasks/" noOptions
        { status := 200, statusText := "OK",
          jsonBody := some (Json.arr []) }).outcome
      = RequestOutcome.success (some (Json.arr [])) := by
  constructor
  · exact (C2_success_resolution true [] "/tasks/1"
      { method := some "DELETE", body := none, headers := [] }
      { status := 204, statusText := "No Content", jsonBody := none } rfl).1 rfl
  · exact (C2_success_resolution true [] "/tasks/" noOptions
      { status := 200, statusText := "OK", jsonBody := some (Json.arr []) } rfl).2
      (by decide) (Json.arr []) rfl

/-- Counterexample to C4 as stated: a 500 response whose body parses to
JSON null makes the detail access throw a TypeError, so the call crashes
instead of throwing an error carrying a server detail or the synthesized
status message (storage and navigation are still untouched). -/
theorem C4_null_body_crashes_instead_of_throwing :
    (request true [("accessToken", "tok")] "/tasks/" noOptions
        { status := 500, statusText := "Internal Server Error",
          jsonBody := some Json.null }).outcome = RequestOutcome.crash ∧
    (∀ msg, (request true [("accessToken", "tok")] "/tasks/" noOptions
        { status := 500, statusText := "Internal Server Error",
          jsonBody := some Json.null }).outcome ≠ RequestOutcome.thrown msg) ∧
    (request true [("accessToken", "tok")] "/tasks/" noOptions
        { status := 500, statusText := "Internal Server Error",
          jsonBody := some Json.null }).storage = [("accessToken", "tok")] ∧
    (request true [("accessToken", "tok")] "/tasks/" noOptions
        { status := 500, statusText := "Internal Server Error",
          jsonBody := some Json.null }).navigatedTo = none := by
  have hcr : (request true [("accessToken", "tok")] "/tasks/" noOptions
      { status := 500, statusText := "Internal Server Error",
        jsonBody := some Json.null }).outcome = RequestOutcome.crash := rfl
  refine ⟨hcr, ?_, rfl, rfl⟩
  intro msg hcontra
  rw [hcr] at hcontra
  exact RequestOutcome.noConfusion hcontra

/-- C4 (amended): a call through `ApiClient.request` receiving a non-2xx
status other than 401 and 403, whose body does not make the detail
access throw (equivalently, does not parse to JSON null), throws an
error carrying the extracted message — the server's string `detail`
verbatim, or the synthesized `API request failed: <status> -
<statusText>` message when the body is missing or unparsable — while
storage is left unchanged and no navigation occurs. -/
theorem C4_other_error_throws_without_side_effects (b : Bool) (st : Storage)
    (e : String) (opts : RequestOptions) (r : Response) (detail : Option Json)
    (hok : respOk r = false) (h1 : r.status ≠ 401) (h3 : r.status ≠ 403)
    (hacc : propAccess (r.jsonBody.getD (Json.obj [])) "detail" = Except.ok detail) :
    (request b st e opts r).outcome
      = RequestOutcome.thrown (otherErrorDetail detail r.status r.statusText) ∧
    (request b st e opts r).storage = st ∧
    (request b st e opts r).navigatedTo = none ∧
    (∀ s, detail = some (Json.str s) →
      otherErrorDetail detail r.status r.statusText = s) ∧
    (r.jsonBody = none →
      otherErrorDetail detail r.status r.statusText =
        "API request failed: " ++ toString r.status ++ " - " ++ r.statusText) := by
  have hh := handleResponse_other_error b st r detail hok h1 h3 hacc
  simp only [request]
  rw [hh]
  refine ⟨rfl, rfl, rfl, ?_, ?_⟩
  · intro s hs
    rw [hs]
    exact otherErrorDetail_str r.status r.statusText s
  · intro hnone
    rw [hnone] at hacc
    have hoknone : Except.ok (none : Option Json) = Except.ok detail := hacc
    injection hoknone with hdet
    rw [← hdet]
    exact otherErrorDetail_of_missing_detail r.status r.statusText

/-- Witness for the amended C4: a 500 response with an unparsable body
throws the synthesized message and leaves the stored tokens in place. -/
theorem C4_other_error_throws_without_side_effects_witness :
    (request true [("accessToken", "tok"), ("refreshToken", "ref")] "/tasks/" noOptions
        { status := 500, statusText := "Internal Server Error", jsonBody := none }).outcome
      = RequestOutcome.thrown "API request failed: 500 - Internal Server Error" ∧
    (request true [("accessToken", "tok"), ("refreshToken", "ref")] "/tasks/" noOptions
        { status := 500, statusText := "Internal Server Error", jsonBody := none }).storage
      = [("accessToken", "tok"), ("refreshToken", "ref")] ∧
    (request true [("accessToken", "tok"), ("refreshToken", "ref")] "/tasks/" noOptions
        { status := 500, statusText := "Internal Server Error", jsonBody := none }).navigatedTo
      = none := by
  have h := C4_other_error_throws_without_side_effects true
    [("accessToken", "tok"), ("refreshToken", "ref")] "/tasks/" noOptions
    { status := 500, statusText := "Internal Server Error", jsonBody := none }
    none rfl (by decide) (by decide) rfl
  exact ⟨h.1, h.2.1, h.2.2.1⟩

/-- C7: `logout` leaves neither token entry in storage (in a browser
context, where storage exists) and issues no HTTP request. -/
theorem C7_logout_clears_tokens_without_request (st : Storage) :
    getItem (logout true st) "accessToken" = none ∧
    getItem (logout true st) "refreshToken" = none ∧
    httpCall ApiMethod.logoutCall = none := by
  have hl : logout true st = removeItem (removeItem st "accessToken") "refreshToken" := rfl
  refine ⟨?_, ?_, rfl⟩
  · rw [hl, getItem_removeItem_other _ _ _ (by decide)]
    exact getItem_removeItem_self st "accessToken"
  · rw [hl]
    exact getItem_removeItem_self _ "refreshToken"

/-- C9: outside a browser context a 401/403 response makes
`ApiClient.request` crash on the unguarded `window.location.href`
assignment: storage is untouched (the clearing step is guarded), no
navigation happens, and no error with the extracted message is thrown. -/
theorem C9_auth_failure_crashes_on_server (st : Storage) (e : String)
    (opts : RequestOptions) (r : Response)
    (h : r.status = 401 ∨ r.status = 403) :
    (request false st e opts r).outcome = RequestOutcome.crash ∧
    (request false st e opts r).storage = st ∧
    (request false st e opts r).navigatedTo = none ∧
    (∀ msg, (request false st e opts r).outcome ≠ RequestOutcome.thrown msg) := by
  have hh := handleResponse_auth_server st r h
  simp only [request]
  rw [hh]
  refine ⟨rfl, rfl, rfl, ?_⟩
  intro msg hcontra
  exact RequestOutcome.noConfusion hcontra

/-- Witness for C9: a 401 during server-side rendering crashes with
storage intact. -/
theorem C9_auth_failure_crashes_on_server_witness :
    (request false [("accessToken", "tok")] "/tasks/" noOptions
        { status := 401, statusText := "Unauthorized",
          jsonBody := some (Json.obj [("detail", Json.str "expired")]) }).outcome
      = RequestOutcome.crash ∧
    (request false [("accessToken", "tok")] "/tasks/" noOptions
        { status := 401, statusText := "Unauthorized",
          jsonBody := some (Json.obj [("detail", Json.str "expired")]) }).storage
      = [("accessToken", "tok")] ∧
    (request false [("accessToken", "tok")] "/tasks/" noOptions
        { status := 401, statusText := "Unauthorized",
          jsonBody := some (Json.obj [("detail", Json.str "expired")]) }).navigatedTo
      = none := by
  have h := C9_auth_failure_crashes_on_server [("accessToken", "tok")] "/tasks/" noOptions
    { status := 401, statusText := "Unauthorized",
      jsonBody := some (Json.obj [("detail", Json.str "expired")]) }
    (Or.inl rfl)
  exact ⟨h.1, h.2.1, h.2.2.1⟩

section MethodLemmas

theorem httpCall_headers_empty (m : ApiMethod) (e : String) (opts : RequestOptions)
    (h : httpCall m = some (e, opts)) : opts.headers = [] := by
  cases m
  all_goals try exact Option.noConfusion h
  all_goals simp only [httpCall, Option.some.injEq] at h
  all_goals injection h with h1 h2
  all_goals rw [← h2]
  all_goals rfl

end MethodLemmas

/-- C8: a successful (2xx, non-204, parsable) reply to `login` or
`register` resolves with exactly the parsed `LoginResponse` body and
leaves client-side storage unchanged — neither token is persisted by the
operation itself. -/
theorem C8_login_register_do_not_persist (b : Bool) (st : Storage)
    (c : Credentials) (u : RegisterRequest) (r : Response) (d : Json)
    (hok : respOk r = true) (h204 : r.status ≠ 204) (hb : r.jsonBody = some d) :
    ∀ m, (m = ApiMethod.login c ∨ m = ApiMethod.register u) →
      ∀ e opts, httpCall m = some (e, opts) →
        (request b st e opts r).outcome = RequestOutcome.success (some d) ∧
        (request b st e opts r).storage = st := by
  intro m hm e opts hcall
  have hh := handleResponse_parsed b st r d hok h204 hb
  constructor
  · simp only [request]
    rw [hh]
  · simp only [request]
    rw [hh]

/-- Witness for C8: a 200 reply to `login` resolves with the parsed
token object while the (empty) storage stays empty. -/
theorem C8_login_register_do_not_persist_witness :
    (request true [] "/auth/login"
        { method := some "POST",
          body := some (jsonStringify (Credentials.toJson
            { email := "a@b.com", password := "x" })),
          headers := [] }
        { status := 200, statusText := "OK",
          jsonBody := some (Json.obj [("access_token", Json.str "at"),
            ("refresh_token", Json.str "rt"), ("token_type", Json.str "bearer")]) }).outcome
      = RequestOutcome.success (some (Json.obj [("access_token", Json.str "at"),
          ("refresh_token", Json.str "rt"), ("token_type", Json.str "bearer")])) ∧
    (request true [] "/auth/login"
        { method := some "POST",
          body := some (jsonStringify (Credentials.toJson
            { email := "a@b.com", password := "x" })),
          headers := [] }
        { status := 200, statusText := "OK",
          jsonBody := some (Json.obj [("access_token", Json.str "at"),
            ("refresh_token", Json.str "rt"), ("token_type", Json.str "bearer")]) }).storage
      = [] := by
  exact C8_login_register_do_not_persist true []
    { email := "a@b.com", password := "x" }
    { email := "a@b.com", password := "x", name := "n" }
    { status := 200, statusText := "OK",
      jsonBody := some (Json.obj [("access_token", Json.str "at"),
        ("refresh_token", Json.str "rt"), ("token_type", Json.str "bearer")]) }
    (Json.obj [("access_token", Json.str "at"),
      ("refresh_token", Json.str "rt"), ("token_type", Json.str "bearer")])
    rfl (by decide) rfl
    (ApiMethod.login { email := "a@b.com", password := "x" })
    (Or.inl rfl)
    "/auth/login"
    { method := some "POST",
      body := some (jsonStringify (Credentials.toJson
        { email := "a@b.com", password := "x" })),
      headers := [] }
    rfl

/-- Counterexample to C3 as stated: with the access token stored as the
empty string and a browser context, a token is present in storage, yet
the outgoing request carries no Authorization header, because the code
tests the token's JS truthiness rather than its presence. -/
theorem C3_stored_empty_token_no_header :
    getItem [("accessToken", "")] "accessToken" = some "" ∧
    lookupHeader (requestHeaders true [("accessToken", "")] noOptions) "Authorization"
      = none := by
  exact ⟨rfl, rfl⟩

/-- C3 (amended): for every request issued through the client's methods,
if a NON-EMPTY access token is stored and execution is in a browser
context, the request carries `Authorization: Bearer <token>`; if no
token is stored, or the stored token is the empty string, or execution
is outside a browser context, no Authorization header is attached. -/
theorem C3_bearer_header_iff_truthy_token (m : ApiMethod) (e : String)
    (opts : RequestOptions) (b : Bool) (st : Storage)
    (hm : httpCall m = some (e, opts)) :
    (∀ t, b = true → getItem st "accessToken" = some t → t ≠ "" →
      lookupHeader (requestHeaders b st opts) "Authorization"
        = some ("Bearer " ++ t)) ∧
    ((b = false ∨ getItem st "accessToken" = none ∨
        getItem st "accessToken" = some "") →
      lookupHeader (requestHeaders b st opts) "Authorization" = none) := by
  have hnil := httpCall_headers_empty m e opts hm
  have hreq : requestHeaders b st opts =
      ("Content-Type", "application/json") :: bearerHeader (getToken b st) := by
    unfold requestHeaders
    rw [hnil]
    rfl
  constructor
  · intro t hb htok hne
    subst hb
    have hgt : getToken true st = some t := by
      simp only [getToken, if_pos rfl]
      exact htok
    rw [hreq, lookupHeader_cons, if_neg (by decide), hgt]
    simp only [bearerHeader]
    rw [if_pos (by simpa using hne)]
    rw [lookupHeader_cons, if_pos rfl]
  · intro hcase
    have hbe : bearerHeader (getToken b st) = [] := by
      rcases hcase with hb | hnone | hempty
      · rw [hb]
        rfl
      · cases b
        · rfl
        · simp only [getToken, if_pos rfl]
          rw [hnone]
          rfl
      · cases b
        · rfl
        · simp only [getToken, if_pos rfl]
          rw [hempty]
          rfl
    rw [hreq, lookupHeader_cons, if_neg (by decide), hbe]
    rfl

/-- Witness for the amended C3: with a stored token "tkn" in a browser
the `getTasks` request carries `Authorization: Bearer tkn`; without a
stored token, or with the empty string stored, no Authorization header
is attached. -/
theorem C3_bearer_header_iff_truthy_token_witness :
    lookupHeader (requestHeaders true [("accessToken", "tkn")] noOptions) "Authorization"
      = some ("Bearer " ++ "tkn") ∧
    lookupHeader (requestHeaders true [] noOptions) "Authorization" = none ∧
    lookupHeader (requestHeaders true [("accessToken", "")] noOptions) "Authorization"
      = none := by
  refine ⟨?_, ?_, ?_⟩
  · exact (C3_bearer_header_iff_truthy_token ApiMethod.getTasks "/tasks/" noOptions
      true [("accessToken", "tkn")] rfl).1 "tkn" rfl rfl (by decide)
  · exact (C3_bearer_header_iff_truthy_token ApiMethod.getTasks "/tasks/" noOptions
      true [] rfl).2 (Or.inr (Or.inl rfl))
  · exact (C3_bearer_header_iff_truthy_token ApiMethod.getTasks "/tasks/" noOptions
      true [("accessToken", "")] rfl).2 (Or.inr (Or.inr rfl))

/-- Counterexample to C5 as stated: with the access token stored as the
empty string and a browser context, a token is present in storage, yet
`isAuthenticated()` returns false, because `!!''` is false in JS. -/
theorem C5_stored_empty_token_not_authenticated :
    getItem [("accessToken", "")] "accessToken" = some "" ∧
    isAuthenticated true [("accessToken", "")] = false := by
  exact ⟨rfl, rfl⟩

/-- C5 (amended): `isAuthenticated()` returns true iff a NON-EMPTY access
token is present in client-side storage and the call occurs in a browser
context; in every non-browser context it returns false. -/
theorem C5_is_authenticated_iff (b : Bool) (st : Storage) :
    isAuthenticated b st = true ↔
      b = true ∧ ∃ t, getItem st "accessToken" = some t ∧ t ≠ "" := by
  cases b
  · rw [show isAuthenticated false st = false from rfl]
    simp
  · rw [show isAuthenticated true st = tokenTruthy (getItem st "accessToken") from rfl]
    cases hg : getItem st "accessToken" with
    | none => simp [tokenTruthy]
    | some t => simp [tokenTruthy]

/-- C6: the headers of every request are the caller-supplied headers
merged over the defaults — `Content-Type: application/json` and the
bearer header derived from the token read — with a caller header of the
same name overriding the default value (the last caller occurrence
winning), and the `Content-Type` default present in the base. -/
theorem C6_header_merge_override (b : Bool) (st : Storage)
    (opts : RequestOptions) (key : String) :
    lookupHeader (requestHeaders b st opts) key =
      (match lastLookup opts.headers key with
       | some v => some v
       | none => lookupHeader
           (("Content-Type", "application/json") :: bearerHeader (getToken b st)) key) ∧
    lookupHeader (("Content-Type", "application/json") :: bearerHeader (getToken b st))
      "Content-Type" = some "application/json" := by
  constructor
  · unfold requestHeaders
    exact lookupHeader_mergeHeaders opts.headers _ key
  · rfl

section DetailLemmas

theorem authErrorDetail_of_nonstr (d : Json) (hns : ∀ s, d ≠ Json.str s) :
    authErrorDetail (some d) =
      if jsTruthy d then jsonStringify d else jsonStringify (Json.str "Unauthorized") := by
  cases d
  case str s => exact absurd rfl (hns s)
  all_goals rfl

theorem otherErrorDetail_of_nonstr (status : Nat) (stext : String) (d : Json)
    (hns : ∀ s, d ≠ Json.str s) :
    otherErrorDetail (some d) status stext =
      if jsTruthy d then jsonStringify d
      else "API request failed: " ++ toString status ++ " - " ++ stext := by
  cases d
  case str s => exact absurd rfl (hns s)
  all_goals rfl

end DetailLemmas

/-- Counterexample to C10 as stated: a 500 response whose body is
`{"detail":null}` carries a non-string `detail`, yet the thrown message
is the synthesized status message, not the JSON serialization "null" of
the detail value — a falsy non-string detail is not serialized. -/
theorem C10_falsy_nonstring_detail_not_serialized :
    (request true [] "/tasks/" noOptions
        { status := 500, statusText := "Internal Server Error",
          jsonBody := some (Json.obj [("detail", Json.null)]) }).outcome
      = RequestOutcome.thrown "API request failed: 500 - Internal Server Error" ∧
    jsonStringify Json.null = "null" ∧
    ("API request failed: 500 - Internal Server Error" : String) ≠ "null" := by
  refine ⟨rfl, rfl, ?_⟩
  decide

/-- C10 (amended): for an error body on which the detail access succeeds
(any body except one parsing to JSON null, which crashes the access
instead): when the body is missing or unparsable, or the accessed
`detail` is absent, the 401/403 message is the JSON serialization of the
string "Unauthorized" — literal quote characters included — and a TRUTHY
non-string `detail` yields its JSON serialization as the message on
every error path; a falsy non-string `detail` (null, false, 0) is
treated like a missing one: the 401/403 path serializes "Unauthorized"
and the other path synthesizes the status message. -/
theorem C10_error_message_serialization (body : Option Json) (status : Nat)
    (stext : String) (detail : Option Json)
    (hacc : propAccess (body.getD (Json.obj [])) "detail" = Except.ok detail) :
    (detail = none →
      authErrorDetail detail = jsonStringify (Json.str "Unauthorized") ∧
      jsonStringify (Json.str "Unauthorized") = "\"Unauthorized\"") ∧
    (∀ d, detail = some d → (∀ s, d ≠ Json.str s) →
      (jsTruthy d = true →
        authErrorDetail detail = jsonStringify d ∧
        otherErrorDetail detail status stext = jsonStringify d) ∧
      (jsTruthy d = false →
        authErrorDetail detail = jsonStringify (Json.str "Unauthorized") ∧
        otherErrorDetail detail status stext =
          "API request failed: " ++ toString status ++ " - " ++ stext)) := by
  constructor
  · intro hnone
    rw [hnone]
    exact ⟨rfl, rfl⟩
  · intro d hd hns
    rw [hd]
    have ha := authErrorDetail_of_nonstr d hns
    have ho := otherErrorDetail_of_nonstr status stext d hns
    constructor
    · intro htrue
      rw [ha, ho, if_pos htrue, if_pos htrue]
      exact ⟨rfl, rfl⟩
    · intro hfalse
      have hnt : ¬jsTruthy d = true := by
        rw [hfalse]
        exact Bool.false_ne_true
      rw [ha, ho, if_neg hnt, if_neg hnt]
      exact ⟨rfl, rfl⟩

/-- Witness for the amended C10: the detail access on the body
`{"detail":7}` yields the truthy non-string 7, whose serialization "7"
is the message on both error paths, and a missing detail yields the
quoted "Unauthorized" message on the 401/403 path. -/
theorem C10_error_message_serialization_witness :
    authErrorDetail (some (Json.num 7)) = "7" ∧
    otherErrorDetail (some (Json.num 7)) 500 "Internal Server Error" = "7" ∧
    authErrorDetail none = "\"Unauthorized\"" ∧
    propAccess ((some (Json.obj [("detail", Json.num 7)])).getD (Json.obj [])) "detail"
      = Except.ok (some (Json.num 7)) := by
  have h7 := ((C10_error_message_serialization
      (some (Json.obj [("detail", Json.num 7)])) 500 "Internal Server Error"
      (some (Json.num 7)) rfl).2
      (Json.num 7) rfl (fun s hh => Json.noConfusion hh)).1 rfl
  have hq := (C10_error_message_serialization (some (Json.obj [])) 500
      "Internal Server Error" none rfl).1 rfl
  exact ⟨h7.1, h7.2, hq.1.trans hq.2, rfl⟩
